import Mathlib

/-!
# Verification of the Soledad client key-management core

Shallow embedding of `src/leap/soledad/__init__.py` and
`src/leap/soledad/crypto.py` (LEAP Soledad client, 2013).

Conventions:
* Python byte strings (`str` in Python 2) are `List Nat` with every
  element `< 256`.
* External cryptographic libraries used by the source (`scrypt.hash`,
  `hashlib.sha256`, `hmac` with sha256, PyCrypto AES in CTR mode, and
  `binascii.b2a_base64` / `a2b_base64`) are modelled as the fields of a
  `CryptoLib` record; the contracts the source relies on (scrypt returns
  `buflen=32` bytes, base64 decode inverts encode, base64 text never
  contains the `:` separator character, HMAC-SHA256 digests have 32
  bytes, AES-CTR is a keystream XOR) are stated as explicit predicates
  on that record and taken as hypotheses where a claim needs them.
* Python exceptions become `Except Err`; each raise site maps to the
  `Err` constructor named after the Python exception class.
-/

namespace Soledad

/-- A byte string: every element is a byte value. -/
def isBytes (l : List Nat) : Prop := ∀ b ∈ l, b < 256

instance (l : List Nat) : Decidable (isBytes l) := by
  unfold isBytes; infer_instance

/-- One lowercase hex digit, as produced by Python's `binascii.b2a_hex`. -/
def hexDigit (n : Nat) : Char :=
  if n < 10 then Char.ofNat (48 + n) else Char.ofNat (87 + n)

/-- `binascii.b2a_hex`: two lowercase hex characters per byte. -/
def hexChars : List Nat → List Char
  | [] => []
  | b :: rest => hexDigit (b / 16) :: hexDigit (b % 16) :: hexChars rest

/-- `binascii.b2a_hex` as a string (used on the local-db key in `_init_db`). -/
def hexEncode (l : List Nat) : String := ⟨hexChars l⟩

/-- Inverse of `hexChars` (helper for the concrete witness library). -/
def hexVal (c : Char) : Nat :=
  if c.toNat ≥ 97 then c.toNat - 87 else c.toNat - 48

def hexParse : List Char → List Nat
  | c1 :: c2 :: rest => (hexVal c1 * 16 + hexVal c2) :: hexParse rest
  | _ => []

/-- Python `s.split(':', 1)` restricted to the case used by the source:
`None` when the string contains no `:` (the two-variable unpacking then
raises `ValueError`), otherwise the parts before and after the FIRST `:`. -/
def splitFirstColon : List Char → Option (List Char × List Char)
  | [] => none
  | c :: rest =>
    if c = ':' then some ([], rest)
    else
      match splitFirstColon rest with
      | none => none
      | some (a, b) => some (c :: a, b)

/-- `iv, ciphertext = secret.split(IV_SEPARATOR, 1)` from `_get_storage_secret`. -/
def splitSecret (s : String) : Option (String × String) :=
  match splitFirstColon s.data with
  | none => none
  | some (a, b) => some (⟨a⟩, ⟨b⟩)

/-- AES-CTR as keystream XOR: `ks i` is the i-th keystream byte,
`ctrXor ks i l` encrypts/decrypts `l` starting at stream position `i`. -/
def ctrXor (ks : Nat → Nat) : Nat → List Nat → List Nat
  | _, [] => []
  | i, b :: rest => (b ^^^ ks i) :: ctrXor ks (i + 1) rest

/-- The external cryptographic libraries imported by the source files.
`scryptHash pw salt` is `scrypt.hash(pw, salt, buflen=32)`;
`sha256hex m` is `hashlib.sha256(m).hexdigest()`;
`hmacSha256 k msg` is `hmac.new(k, msg, hashlib.sha256).digest()`;
`ctrKeystream key iv` is the AES-256-CTR keystream with 64-bit `iv`
prefix and counter starting at zero (`Counter.new(64, prefix=iv)`);
`b2aBase64` / `a2bBase64` are `binascii.b2a_base64` (which appends a
newline) and `binascii.a2b_base64` (which skips non-alphabet bytes). -/
structure CryptoLib where
  scryptHash : List Nat → List Nat → List Nat
  sha256hex : List Nat → String
  hmacSha256 : List Nat → String → List Nat
  ctrKeystream : List Nat → List Nat → Nat → Nat
  b2aBase64 : List Nat → String
  a2bBase64 : String → List Nat

/-- scrypt called with `buflen=32` returns 32 bytes. -/
def scryptOK (P : CryptoLib) : Prop :=
  ∀ pw salt, (P.scryptHash pw salt).length = 32

/-- base64 decode inverts encode on byte strings. -/
def base64OK (P : CryptoLib) : Prop :=
  ∀ m, isBytes m → P.a2bBase64 (P.b2aBase64 m) = m

/-- base64 text (alphabet plus the trailing newline) never contains `:`. -/
def base64NoColon (P : CryptoLib) : Prop :=
  ∀ m, isBytes m → ':' ∉ (P.b2aBase64 m).data

/-- AES-CTR keystream bytes are bytes. -/
def ksOK (P : CryptoLib) : Prop :=
  ∀ key iv i, P.ctrKeystream key iv i < 256

/-- HMAC-SHA256 digests have 32 bytes. -/
def hmacLenOK (P : CryptoLib) : Prop :=
  ∀ k msg, (P.hmacSha256 k msg).length = 32

/-- The Python exceptions reachable from the embedded code, one
constructor per exception class raised or propagated by the source. -/
inductive Err where
  | wrongKeySize          -- AssertionError 'Wrong key size: ...'
  | missingIV             -- AssertionError 'AES-256-CTR needs an initial value.'
  | unknownMethod         -- UnknownEncryptionMethod
  | noSymmetricSecret     -- NoSymmetricSecret
  | keyError              -- KeyError (dict lookup miss)
  | valueError            -- ValueError (unpacking split without separator)
  | indexError            -- IndexError (.items()[0] on an empty dict)
  | ioError               -- IOError (secrets file absent)
  | remoteUnavailable     -- network failure inside the u1db HTTP client
  | assertError           -- AssertionError from soledad_assert in _put_secrets_in_shared_db
deriving DecidableEq

/-- `SoledadCrypto.encrypt_sym` (crypto.py 77-108).  `iv` is the fresh
`os.urandom(8)` value, made an explicit argument.  Returns
`(b2a_base64(iv), ciphertext)`. -/
def encrypt_sym (P : CryptoLib) (data key : List Nat) (iv : List Nat)
    (method : String) : Except Err (String × List Nat) :=
  if method = "aes-256-ctr" then
    if key.length = 32 then
      .ok (P.b2aBase64 iv, ctrXor (P.ctrKeystream key iv) 0 data)
    else .error .wrongKeySize
  else .error .unknownMethod

/-- `SoledadCrypto.decrypt_sym` (crypto.py 110-145).  `iv` is the
base64-encoded initial value from the keyword arguments (`none` models
a call without `iv=`). -/
def decrypt_sym (P : CryptoLib) (data key : List Nat) (iv : Option String)
    (method : String) : Except Err (List Nat) :=
  if method = "aes-256-ctr" then
    if key.length = 32 then
      match iv with
      | none => .error .missingIV
      | some ivb64 =>
        .ok (ctrXor (P.ctrKeystream key (P.a2bBase64 ivb64)) 0 data)
    else .error .wrongKeySize
  else .error .unknownMethod

/-! ## Constants of the `Soledad` class (`__init__.py` 200-258) -/

def GENERATED_SECRET_LENGTH : Nat := 1024
def LOCAL_STORAGE_SECRET_LENGTH : Nat := 512
def REMOTE_STORAGE_SECRET_LENGTH : Nat :=
  GENERATED_SECRET_LENGTH - LOCAL_STORAGE_SECRET_LENGTH
def SALT_LENGTH : Nat := 64
/-- `SoledadCrypto.MAC_KEY_LENGTH` (crypto.py 66). -/
def MAC_KEY_LENGTH : Nat := 64

/-- Python slice `l[a:b]` for `a ≤ b`. -/
def pySlice (l : List Nat) (a b : Nat) : List Nat := (l.drop a).take (b - a)

/-- One value of the `storage_secrets` dictionary: the wrapped form of a
master secret as built by `_gen_secret` (`__init__.py` 563-573). -/
structure SecretData where
  kdf : String
  kdf_salt : String
  kdf_length : Nat
  cipher : String
  length : Nat
  secret : String
deriving DecidableEq

/-- Lookup in a Python dict modelled as an insertion-ordered assoc list. -/
def dlookup : List (String × SecretData) → String → Option SecretData
  | [], _ => none
  | (k, v) :: rest, key => if k = key then some v else dlookup rest key

/-- Python dict assignment `d[key] = v`: overwrite in place or append. -/
def dinsert : List (String × SecretData) → String → SecretData →
    List (String × SecretData)
  | [], key, v => [(key, v)]
  | (k, w) :: rest, key, v =>
    if k = key then (key, v) :: rest else (k, w) :: dinsert rest key v

/-- The crypto-relevant mutable attributes of a `Soledad` instance:
`_passphrase`, `_secrets` and `_secret_id` (`__init__.py` 286-290). -/
structure SoledadState where
  passphrase : List Nat
  secrets : List (String × SecretData)
  secret_id : Option String
deriving DecidableEq

/-- `Soledad._get_storage_secret` (`__init__.py` 447-469): derive the
wrapping key by scrypt from the passphrase and the stored base64 salt,
split the stored `secret` string at the FIRST `:` into base64 iv and
base64 ciphertext, and decrypt.  `self._secrets[self._secret_id]`
raises `KeyError` when the id is unset or absent; the two-variable
unpacking of `split` raises `ValueError` when there is no separator.
Note: the plaintext is returned as is — nothing compares its SHA-256
with the stored secret id. -/
def _get_storage_secret (P : CryptoLib) (s : SoledadState) :
    Except Err (List Nat) :=
  match s.secret_id with
  | none => .error .keyError
  | some sid =>
    match dlookup s.secrets sid with
    | none => .error .keyError
    | some entry =>
      let key := P.scryptHash s.passphrase (P.a2bBase64 entry.kdf_salt)
      match splitSecret entry.secret with
      | none => .error .valueError
      | some (iv, ctb64) =>
        decrypt_sym P (P.a2bBase64 ctb64) key (some iv) "aes-256-ctr"

/-- The pure core of `Soledad._gen_secret` (`__init__.py` 528-576): the
three `os.urandom` draws (`secret`, `salt` and the iv drawn inside
`encrypt_sym`) are explicit arguments.  Returns the new id (the hex
SHA-256 of the plaintext secret) and the dictionary value stored under
it.  The stored `secret` field is `str(iv) + ':' + b2a_base64(ct)` where
`iv` is already the base64 string returned by `encrypt_sym`. -/
def gen_secret (P : CryptoLib) (passphrase secret salt iv : List Nat) :
    Except Err (String × SecretData) :=
  let secret_id := P.sha256hex secret
  let key := P.scryptHash passphrase salt
  match encrypt_sym P secret key iv "aes-256-ctr" with
  | .error e => .error e
  | .ok (ivb64, ct) =>
    .ok (secret_id,
      { kdf := "scrypt"
        kdf_salt := P.b2aBase64 salt
        kdf_length := key.length
        cipher := "aes256"
        length := secret.length
        secret := ivb64 ++ ":" ++ P.b2aBase64 ct })

/-- The `SoledadCrypto.secret` property (crypto.py 203-207): it returns
`self._soledad.storage_secret`, i.e. the result of
`_get_storage_secret`.  That method either raises or returns a byte
string, so the property never evaluates to `None`. -/
def crypto_secret (P : CryptoLib) (s : SoledadState) :
    Except Err (Option (List Nat)) :=
  match _get_storage_secret P s with
  | .error e => .error e
  | .ok m => .ok (some m)

/-- `SoledadCrypto.doc_passphrase` (crypto.py 147-173): guard
`if self.secret is None: raise NoSymmetricSecret()`, then HMAC-SHA256
keyed with `secret[MAC_KEY_LENGTH:REMOTE_STORAGE_SECRET_LENGTH]` over
`doc_id`.  (The source evaluates the `secret` property twice; it is
pure here, so one evaluation is shared.) -/
def doc_passphrase (P : CryptoLib) (s : SoledadState) (doc_id : String) :
    Except Err (List Nat) :=
  match crypto_secret P s with
  | .error e => .error e
  | .ok none => .error .noSymmetricSecret
  | .ok (some sec) =>
    .ok (P.hmacSha256 (pySlice sec MAC_KEY_LENGTH REMOTE_STORAGE_SECRET_LENGTH)
          doc_id)

/-- `SoledadCrypto.doc_mac_key` (crypto.py 175-197): same guard, then
HMAC-SHA256 keyed with `secret[:MAC_KEY_LENGTH]` over `doc_id`. -/
def doc_mac_key (P : CryptoLib) (s : SoledadState) (doc_id : String) :
    Except Err (List Nat) :=
  match crypto_secret P s with
  | .error e => .error e
  | .ok none => .error .noSymmetricSecret
  | .ok (some sec) =>
    .ok (P.hmacSha256 (pySlice sec 0 MAC_KEY_LENGTH) doc_id)

/-- The key computation of `Soledad._init_db` (`__init__.py` 393-426):
scrypt over the password slice `secret[pwd_start:pwd_end]` with the salt
slice `secret[salt_start:salt_end]`, `buflen=32`, and the result handed
to `sqlcipher_open` hex-encoded (`binascii.b2a_hex`). -/
def _init_db_key (P : CryptoLib) (s : SoledadState) : Except Err String :=
  let salt_start := REMOTE_STORAGE_SECRET_LENGTH
  let salt_end := salt_start + SALT_LENGTH
  let pwd_start := salt_end
  let pwd_end := salt_start + LOCAL_STORAGE_SECRET_LENGTH
  match _get_storage_secret P s with
  | .error e => .error e
  | .ok secret =>
    .ok (hexEncode (P.scryptHash (pySlice secret pwd_start pwd_end)
          (pySlice secret salt_start salt_end)))

/-! ## The bootstrap state machine (`Soledad._bootstrap` and helpers) -/

/-- The content of a recovery document (`import_recovery_document`,
`export_recovery_document`): the `storage_secrets` dictionary and the
optional `uuid` key. -/
structure RecoveryDoc where
  storage_secrets : List (String × SecretData)
  uuid : Option String
deriving DecidableEq

/-- Outcome of one call into the remote shared database: either the
call returns, or the underlying HTTP client raises (network failure). -/
inductive RemoteResp (α : Type) where
  | ok (a : α)
  | unavailable
deriving DecidableEq

/-- The environment of one bootstrap run: whether `_shared_db()`
returns a handle (it returns `None` when `server_url` is falsy), how
`get_doc` and `put_doc` behave, and the bytes drawn by `os.urandom`
inside `_gen_secret` (secret, salt, and the iv drawn in
`encrypt_sym`). -/
structure World where
  dbAvailable : Bool
  getResp : RemoteResp (Option RecoveryDoc)
  putResp : RemoteResp Unit
  freshSecret : List Nat
  freshSalt : List Nat
  freshIv : List Nat

/-- A `Soledad` instance together with its disk environment: `disk` is
the parsed `storage_secrets` dictionary of the secrets file, `none`
when the file does not exist. -/
structure BootState extends SoledadState where
  uuid : String
  disk : Option (List (String × SecretData))
deriving DecidableEq

/-- `Soledad._load_secrets` (`__init__.py` 479-508): raise `IOError`
when the file is absent; otherwise REPLACE the in-memory dictionary by
the file content and, when no `secret_id` is set, select the first
entry (`self._secrets.items()[0][0]`, an `IndexError` on an empty
dictionary). -/
def _load_secrets (s : BootState) : Except Err BootState :=
  match s.disk with
  | none => .error .ioError
  | some content =>
    let s1 : BootState :=
      { s with toSoledadState := { s.toSoledadState with secrets := content } }
    match s1.secret_id with
    | some _ => .ok s1
    | none =>
      match content with
      | [] => .error .indexError
      | (sid, _) :: _ =>
        .ok { s1 with
              toSoledadState := { s1.toSoledadState with secret_id := some sid } }

/-- `Soledad._has_secret` (`__init__.py` 510-526): when the active id is
unset or absent from the map, try `_load_secrets`, catching only
`IOError` (an `IndexError` propagates); then report whether
`_get_storage_secret` succeeds (the bare `except` catches every
exception).  Returns the possibly-updated state together with the
boolean. -/
def _has_secret_load (s : BootState) : Except Err BootState :=
  let needLoad :=
    match s.secret_id with
    | none => true
    | some sid => (dlookup s.secrets sid).isNone
  if needLoad then
    match _load_secrets s with
    | .error .ioError => .ok s        -- caught and logged
    | .error e => .error e
    | .ok s1 => .ok s1
  else .ok s

def _has_secret (P : CryptoLib) (s : BootState) : Except Err (BootState × Bool) :=
  match _has_secret_load s with
  | .error e => .error e
  | .ok s1 =>
    match _get_storage_secret P s1.toSoledadState with
    | .ok _ => .ok (s1, true)
    | .error _ => .ok (s1, false)

/-- The merge loop of `Soledad.import_recovery_document`
(`__init__.py` 1017-1020): insert each imported pair whose id is not
already a key of the local dictionary. -/
def import_secrets (cur : List (String × SecretData)) :
    List (String × SecretData) → List (String × SecretData)
  | [] => cur
  | (sid, sd) :: rest =>
    if (dlookup cur sid).isSome then import_secrets cur rest
    else import_secrets (dinsert cur sid sd) rest

/-- `Soledad.import_recovery_document` (`__init__.py` 1002-1027): merge
the imported `storage_secrets`, persist (`_store_secrets` rewrites the
file with the whole map), adopt the `uuid` when present, and when no
active id is set select the first imported entry
(`data[...].items()[0][0]`, an `IndexError` on an empty import).  The
state mutations precede that possible exception, so the result is the
mutated state together with the optional exception. -/
def import_recovery_document (s : BootState) (d : RecoveryDoc) :
    BootState × Option Err :=
  let secrets := import_secrets s.secrets d.storage_secrets
  let s1 : BootState :=
    { s with
      toSoledadState := { s.toSoledadState with secrets := secrets }
      disk := some secrets }
  let s2 : BootState :=
    match d.uuid with
    | some u => { s1 with uuid := u }
    | none => s1
  match s2.secret_id with
  | some _ => (s2, none)
  | none =>
    match d.storage_secrets with
    | [] => (s2, some .indexError)
    | (sid, _) :: _ =>
      ({ s2 with
         toSoledadState := { s2.toSoledadState with secret_id := some sid } },
       none)

/-- `Soledad._get_secrets_from_shared_db` (`__init__.py` 630-645): when
`_shared_db()` returns no handle, log a warning and return `None`;
otherwise `db.get_doc(...)`, whose network failure propagates. -/
def _get_secrets_from_shared_db (w : World) : Except Err (Option RecoveryDoc) :=
  if w.dbAvailable then
    match w.getResp with
    | .ok d => .ok d
    | .unavailable => .error .remoteUnavailable
  else .ok none

/-- `Soledad._gen_secret` as a state transformer: generate the wrapped
secret from the run's random bytes, insert it into the dictionary, and
persist (`_store_secrets` writes the whole map to the secrets file).
Returns the new id; `_bootstrap` then makes it active. -/
def _gen_secret_state (P : CryptoLib) (w : World) (s : BootState) :
    Except Err (BootState × String) :=
  match gen_secret P s.passphrase w.freshSecret w.freshSalt w.freshIv with
  | .error e => .error e
  | .ok (sid, entry) =>
    let secrets := dinsert s.secrets sid entry
    .ok ({ s with
           toSoledadState := { s.toSoledadState with secrets := secrets }
           disk := some secrets },
         sid)

/-- `Soledad._put_secrets_in_shared_db` (`__init__.py` 647-673):
assert `_has_secret()`; fetch the existing document (creating a fresh
one when `None` comes back); then, only if `_shared_db()` returns a
handle, `put_doc` — otherwise log a warning and RETURN WITHOUT
UPLOADING.  The boolean of the result records whether a put was
performed. -/
def _put_secrets_in_shared_db (P : CryptoLib) (w : World) (s : BootState) :
    Except Err (BootState × Bool) :=
  match _has_secret P s with
  | .error e => .error e
  | .ok (s1, has) =>
    if has then
      match _get_secrets_from_shared_db w with
      | .error e => .error e
      | .ok _doc =>
        if w.dbAvailable then
          match w.putResp with
          | .ok _ => .ok (s1, true)
          | .unavailable => .error .remoteUnavailable
        else .ok (s1, false)
    else .error .assertError

/-- Observable outcome of a completed bootstrap run: whether stage 1
generated a fresh secret, whether stage 2 put a document into the
shared database, and the hex key stage 3 handed to `sqlcipher_open`. -/
structure Trace where
  generated : Bool
  putPerformed : Bool
  dbOpenedWithKey : Option String
deriving DecidableEq

/-- `Soledad._bootstrap` (`__init__.py` 324-372).  Stage 0 (directory
creation, crypto-object construction) is pure I/O and carries no
state relevant here.  Stage 1: if `_has_secret()` is false, fetch from
the shared database; import the document when one is found, otherwise
generate a fresh secret and make it active.  Stage 2:
`_put_secrets_in_shared_db`.  Stage 3: `_init_db` opens SQLCipher with
the derived hex key. -/
def _bootstrap (P : CryptoLib) (w : World) (s : BootState) :
    Except Err (BootState × Trace) :=
  match _has_secret P s with
  | .error e => .error e
  | .ok (s1, has) =>
    let stage1 : Except Err (BootState × Bool) :=
      if has then .ok (s1, false)
      else
        match _get_secrets_from_shared_db w with
        | .error e => .error e
        | .ok (some d) =>
          match import_recovery_document s1 d with
          | (s2, none) => .ok (s2, false)
          | (_, some e) => .error e
        | .ok none =>
          match _gen_secret_state P w s1 with
          | .error e => .error e
          | .ok (s2, sid) =>
            .ok ({ s2 with
                   toSoledadState :=
                     { s2.toSoledadState with secret_id := some sid } },
                 true)
    match stage1 with
    | .error e => .error e
    | .ok (s2, generated) =>
      match _put_secrets_in_shared_db P w s2 with
      | .error e => .error e
      | .ok (s3, putDone) =>
        match _init_db_key P s3.toSoledadState with
        | .error e => .error e
        | .ok key =>
          .ok (s3, ⟨generated, putDone, some key⟩)

/-- Whether a bootstrap run generated a fresh secret. -/
def bootGenerated (P : CryptoLib) (w : World) (s : BootState) :
    Except Err Bool :=
  match _bootstrap P w s with
  | .error e => .error e
  | .ok r => .ok r.2.generated

/-- Whether a bootstrap run put a document into the shared database. -/
def bootPutDone (P : CryptoLib) (w : World) (s : BootState) :
    Except Err Bool :=
  match _bootstrap P w s with
  | .error e => .error e
  | .ok r => .ok r.2.putPerformed

/-- Whether a bootstrap run reached stage 3 and opened the local db. -/
def bootOpened (P : CryptoLib) (w : World) (s : BootState) :
    Except Err Bool :=
  match _bootstrap P w s with
  | .error e => .error e
  | .ok r => .ok r.2.dbOpenedWithKey.isSome

/-! ## Helper lemmas -/

theorem hexVal_hexDigit : ∀ n, n < 16 → hexVal (hexDigit n) = n := by decide

theorem hexDigit_ne_colon : ∀ n, n < 16 → hexDigit n ≠ ':' := by decide

theorem hexParse_hexChars (l : List Nat) (h : isBytes l) :
    hexParse (hexChars l) = l := by
  induction l with
  | nil => rfl
  | cons b rest ih =>
    have hb : b < 256 := h b (List.mem_cons_self _ _)
    have hrest : isBytes rest := fun x hx => h x (List.mem_cons_of_mem _ hx)
    have h1 : b / 16 < 16 := by omega
    have h2 : b % 16 < 16 := Nat.mod_lt _ (by norm_num)
    simp only [hexChars, hexParse, hexVal_hexDigit _ h1, hexVal_hexDigit _ h2,
      ih hrest, List.cons.injEq, and_true]
    omega

theorem hexChars_no_colon (l : List Nat) (h : isBytes l) :
    ':' ∉ hexChars l := by
  induction l with
  | nil => simp [hexChars]
  | cons b rest ih =>
    have hb : b < 256 := h b (List.mem_cons_self _ _)
    have hrest : isBytes rest := fun x hx => h x (List.mem_cons_of_mem _ hx)
    have h1 : b / 16 < 16 := by omega
    have h2 : b % 16 < 16 := Nat.mod_lt _ (by norm_num)
    intro hmem
    simp only [hexChars, List.mem_cons] at hmem
    rcases hmem with h' | h' | h'
    · exact hexDigit_ne_colon _ h1 h'.symm
    · exact hexDigit_ne_colon _ h2 h'.symm
    · exact ih hrest h'

theorem ctrXor_ctrXor (ks : Nat → Nat) : ∀ i l, ctrXor ks i (ctrXor ks i l) = l
  | _, [] => rfl
  | i, b :: rest => by
    simp only [ctrXor, ctrXor_ctrXor ks (i + 1) rest, List.cons.injEq, and_true]
    exact Nat.xor_cancel_right (ks i) b

theorem ctrXor_isBytes (ks : Nat → Nat) (hks : ∀ i, ks i < 256) :
    ∀ i l, isBytes l → isBytes (ctrXor ks i l)
  | _, [], _ => by intro b hb; cases hb
  | i, b :: rest, h => by
    intro x hx
    have hb : b < 256 := h b (List.mem_cons_self _ _)
    have hrest : isBytes rest := fun y hy => h y (List.mem_cons_of_mem _ hy)
    simp only [ctrXor, List.mem_cons] at hx
    rcases hx with h' | h'
    · subst h'
      exact Nat.xor_lt_two_pow (n := 8) hb (hks i)
    · exact ctrXor_isBytes ks hks (i + 1) rest hrest x h'

theorem splitFirstColon_append (l1 l2 : List Char) (h : ':' ∉ l1) :
    splitFirstColon (l1 ++ ':' :: l2) = some (l1, l2) := by
  induction l1 with
  | nil => simp [splitFirstColon]
  | cons c rest ih =>
    have hc : ¬(c = ':') := fun hc => h (hc ▸ List.mem_cons_self _ _)
    simp only [List.cons_append, splitFirstColon, if_neg hc, List.append_eq,
      ih (fun hm => h (List.mem_cons_of_mem _ hm))]

theorem splitSecret_append (s1 s2 : String) (h : ':' ∉ s1.data) :
    splitSecret (s1 ++ ":" ++ s2) = some (s1, s2) := by
  unfold splitSecret
  have hcolon : (":" : String).data = [':'] := by decide
  have hdata : (s1 ++ ":" ++ s2).data = s1.data ++ ':' :: s2.data := by
    rw [String.data_append, String.data_append, hcolon, List.append_assoc]
    rfl
  rw [hdata, splitFirstColon_append _ _ h]

theorem dlookup_dinsert (m : List (String × SecretData)) (k k' : String)
    (v : SecretData) :
    dlookup (dinsert m k v) k' = if k = k' then some v else dlookup m k' := by
  induction m with
  | nil => simp [dinsert, dlookup]
  | cons p rest ih =>
    obtain ⟨pk, pv⟩ := p
    by_cases h1 : pk = k
    · subst h1
      simp only [dinsert, if_pos rfl, dlookup]
      by_cases h2 : pk = k' <;> simp [h2]
    · simp only [dinsert, if_neg h1, dlookup, ih]
      by_cases h2 : pk = k'
      · subst h2
        have : ¬(k = pk) := fun he => h1 he.symm
        simp [this]
      · simp [h2]

theorem import_secrets_preserves (imp : List (String × SecretData)) :
    ∀ cur sid v, dlookup cur sid = some v →
      dlookup (import_secrets cur imp) sid = some v := by
  induction imp with
  | nil => intro cur sid v h; exact h
  | cons p rest ih =>
    intro cur sid v h
    obtain ⟨pk, pv⟩ := p
    cases hp : (dlookup cur pk).isSome with
    | true => simpa [import_secrets, hp] using ih cur sid v h
    | false =>
      have hne : ¬(pk = sid) := by
        intro he
        subst he
        rw [h] at hp
        simp at hp
      have h' : dlookup (dinsert cur pk pv) sid = some v := by
        rw [dlookup_dinsert, if_neg hne]
        exact h
      simpa [import_secrets, hp] using ih _ sid v h'

theorem getss_parts (P : CryptoLib) (t : SoledadState) (m : List Nat)
    (h : _get_storage_secret P t = .ok m) :
    ∃ sid entry, t.secret_id = some sid ∧ dlookup t.secrets sid = some entry := by
  unfold _get_storage_secret at h
  split at h
  · exact Except.noConfusion h
  · rename_i sid hsid
    split at h
    · exact Except.noConfusion h
    · rename_i entry hlk
      exact ⟨sid, entry, hsid, hlk⟩

theorem has_secret_stable (P : CryptoLib) (s1 : BootState) (m : List Nat)
    (h : _get_storage_secret P s1.toSoledadState = .ok m) :
    _has_secret P s1 = .ok (s1, true) := by
  obtain ⟨sid, entry, hsid, hlk⟩ := getss_parts P _ m h
  have hload : _has_secret_load s1 = .ok s1 := by
    simp only [_has_secret_load, hsid, hlk, Option.isNone_some,
      Bool.false_eq_true, if_false]
  simp only [_has_secret, hload, h]

theorem has_secret_true_getss (P : CryptoLib) (s s1 : BootState)
    (h : _has_secret P s = .ok (s1, true)) :
    ∃ m, _get_storage_secret P s1.toSoledadState = .ok m := by
  unfold _has_secret at h
  split at h
  · exact Except.noConfusion h
  · rename_i s2 hload
    split at h
    · rename_i m hm
      have h1 : s2 = s1 := congrArg Prod.fst (Except.ok.inj h)
      exact ⟨m, h1 ▸ hm⟩
    · exact absurd (congrArg Prod.snd (Except.ok.inj h)) (by simp)

/-! ## A concrete library instance for evaluating the model

The theorems below hold for every `CryptoLib` satisfying the stated
library contracts; `plainLib` is one computable instance used to
evaluate them on concrete inputs (a hex codec stands in for base64 —
it satisfies the same contracts: decode inverts encode and the encoded
text never contains `:`). -/

def plainLib : CryptoLib where
  scryptHash := fun _ _ => List.replicate 32 0
  sha256hex := fun _ => ""
  hmacSha256 := fun _ _ => List.replicate 32 0
  ctrKeystream := fun _ _ _ => 0
  b2aBase64 := fun m => hexEncode m
  a2bBase64 := fun s => hexParse s.data

theorem plainLib_scryptOK : scryptOK plainLib := fun _ _ => by
  simp [plainLib]

theorem plainLib_base64OK : base64OK plainLib := fun m hm => by
  simpa [plainLib, hexEncode] using hexParse_hexChars m hm

theorem plainLib_base64NoColon : base64NoColon plainLib := fun m hm => by
  simpa [plainLib, hexEncode] using hexChars_no_colon m hm

theorem plainLib_ksOK : ksOK plainLib := fun _ _ _ => by
  simp [plainLib]

theorem plainLib_hmacLenOK : hmacLenOK plainLib := fun _ _ => by
  simp [plainLib]

/-! ## Evaluation lemmas for the crypto layer -/

theorem encrypt_sym_ok (P : CryptoLib) (data key iv : List Nat)
    (hk : key.length = 32) :
    encrypt_sym P data key iv "aes-256-ctr" =
      .ok (P.b2aBase64 iv, ctrXor (P.ctrKeystream key iv) 0 data) := by
  simp [encrypt_sym, hk]

theorem decrypt_sym_ok (P : CryptoLib) (data key : List Nat) (ivb64 : String)
    (hk : key.length = 32) :
    decrypt_sym P data key (some ivb64) "aes-256-ctr" =
      .ok (ctrXor (P.ctrKeystream key (P.a2bBase64 ivb64)) 0 data) := by
  simp [decrypt_sym, hk]

theorem getss_eq (P : CryptoLib) (s : SoledadState) (sid : String)
    (entry : SecretData) (ivb64 ctb64 : String)
    (hsid : s.secret_id = some sid)
    (hlk : dlookup s.secrets sid = some entry)
    (hsplit : splitSecret entry.secret = some (ivb64, ctb64))
    (hk : (P.scryptHash s.passphrase (P.a2bBase64 entry.kdf_salt)).length = 32) :
    _get_storage_secret P s =
      .ok (ctrXor
        (P.ctrKeystream (P.scryptHash s.passphrase (P.a2bBase64 entry.kdf_salt))
          (P.a2bBase64 ivb64))
        0 (P.a2bBase64 ctb64)) := by
  simp only [_get_storage_secret, hsid, hlk, hsplit,
    decrypt_sym_ok _ _ _ _ hk]

theorem gen_secret_ok (P : CryptoLib) (pw m salt iv : List Nat)
    (hk : (P.scryptHash pw salt).length = 32) :
    gen_secret P pw m salt iv =
      .ok (P.sha256hex m,
        { kdf := "scrypt"
          kdf_salt := P.b2aBase64 salt
          kdf_length := (P.scryptHash pw salt).length
          cipher := "aes256"
          length := m.length
          secret := P.b2aBase64 iv ++ ":" ++
            P.b2aBase64 (ctrXor (P.ctrKeystream (P.scryptHash pw salt) iv) 0 m) }) := by
  simp only [gen_secret, encrypt_sym_ok _ _ _ _ hk]

/-! ## Claim C4 — symmetric encryption round-trip -/

/-- C4: for every 32-byte key `k` and every plaintext `x`, decrypting
the ciphertext produced by `encrypt_sym(x, k)` with the same key and
the returned base64 iv yields `x`.  The iv drawn by `os.urandom(8)`
inside `encrypt_sym` is the explicit byte-string argument `iv`; the
library hypothesis is that base64 decoding inverts encoding. -/
theorem C4_encrypt_decrypt_roundtrip (P : CryptoLib) (k x iv : List Nat)
    (hb64 : base64OK P) (hk : k.length = 32) (hiv : isBytes iv) :
    (encrypt_sym P x k iv "aes-256-ctr").bind
      (fun r => decrypt_sym P r.2 k (some r.1) "aes-256-ctr") = .ok x := by
  rw [encrypt_sym_ok _ _ _ _ hk]
  simp only [Except.bind, decrypt_sym_ok _ _ _ _ hk, hb64 iv hiv,
    ctrXor_ctrXor]

theorem C4_witness :
    base64OK plainLib ∧ (List.replicate 32 5).length = 32 ∧
    isBytes [7, 200] ∧
    (encrypt_sym plainLib [1, 2, 3] (List.replicate 32 5) [7, 200]
        "aes-256-ctr").bind
      (fun r => decrypt_sym plainLib r.2 (List.replicate 32 5) (some r.1)
        "aes-256-ctr") = .ok [1, 2, 3] :=
  ⟨plainLib_base64OK, by simp, by decide,
    C4_encrypt_decrypt_roundtrip plainLib (List.replicate 32 5) [1, 2, 3]
      [7, 200] plainLib_base64OK (by simp) (by decide)⟩

/-! ## Claim C2 — generate / unwrap round-trip and secret-id integrity -/

/-- C2: for every secret produced by `_gen_secret` under passphrase
`pw`, unwrapping the stored wrapped secret with the same passphrase via
`_get_storage_secret` returns the original 1024-byte master secret
(first conjunct), and the stored secret id is the lowercase hex SHA-256
of that plaintext (second conjunct: the id is `sha256hex m`, and by the
first conjunct the unwrapped plaintext is `m`).  Library hypotheses:
scrypt returns 32 bytes, base64 decode inverts encode, base64 text has
no `:`, keystream bytes are bytes. -/
theorem C2_gen_secret_integrity (P : CryptoLib) (pw m salt iv : List Nat)
    (hscr : scryptOK P) (hb64 : base64OK P) (hnc : base64NoColon P)
    (hks : ksOK P) (hm : isBytes m) (_hmlen : m.length = 1024)
    (hsalt : isBytes salt) (hiv : isBytes iv) :
    (gen_secret P pw m salt iv).bind
      (fun r => _get_storage_secret P ⟨pw, [(r.1, r.2)], some r.1⟩) = .ok m ∧
    (gen_secret P pw m salt iv).map Prod.fst = .ok (P.sha256hex m) := by
  have hkey : (P.scryptHash pw salt).length = 32 := hscr pw salt
  have hct : isBytes (ctrXor (P.ctrKeystream (P.scryptHash pw salt) iv) 0 m) :=
    ctrXor_isBytes _ (fun i => hks _ _ i) 0 m hm
  constructor
  · rw [gen_secret_ok _ _ _ _ _ hkey]
    simp only [Except.bind]
    rw [getss_eq P _ (P.sha256hex m)
      { kdf := "scrypt"
        kdf_salt := P.b2aBase64 salt
        kdf_length := (P.scryptHash pw salt).length
        cipher := "aes256"
        length := m.length
        secret := P.b2aBase64 iv ++ ":" ++
          P.b2aBase64 (ctrXor (P.ctrKeystream (P.scryptHash pw salt) iv) 0 m) }
      (P.b2aBase64 iv)
      (P.b2aBase64 (ctrXor (P.ctrKeystream (P.scryptHash pw salt) iv) 0 m))
      rfl (by simp [dlookup]) (splitSecret_append _ _ (hnc iv hiv))
      (by rw [hb64 salt hsalt]; exact hkey)]
    rw [hb64 salt hsalt, hb64 iv hiv, hb64 _ hct, ctrXor_ctrXor]
  · rw [gen_secret_ok _ _ _ _ _ hkey]
    rfl

theorem isBytes_replicate (n b : Nat) (h : b < 256) :
    isBytes (List.replicate n b) := fun x hx => by
  rw [List.eq_of_mem_replicate hx]; exact h

theorem C2_witness :
    scryptOK plainLib ∧ base64OK plainLib ∧ base64NoColon plainLib ∧
    ksOK plainLib ∧ isBytes (List.replicate 1024 9) ∧
    (List.replicate 1024 9).length = 1024 ∧
    isBytes (List.replicate 64 1) ∧ isBytes [8, 8, 8, 8, 8, 8, 8, 8] ∧
    ((gen_secret plainLib [112, 119] (List.replicate 1024 9)
        (List.replicate 64 1) [8, 8, 8, 8, 8, 8, 8, 8]).bind
      (fun r => _get_storage_secret plainLib
        ⟨[112, 119], [(r.1, r.2)], some r.1⟩) =
      .ok (List.replicate 1024 9) ∧
    (gen_secret plainLib [112, 119] (List.replicate 1024 9)
        (List.replicate 64 1) [8, 8, 8, 8, 8, 8, 8, 8]).map Prod.fst =
      .ok (plainLib.sha256hex (List.replicate 1024 9))) :=
  ⟨plainLib_scryptOK, plainLib_base64OK, plainLib_base64NoColon,
    plainLib_ksOK, isBytes_replicate 1024 9 (by norm_num),
    by rw [List.length_replicate],
    isBytes_replicate 64 1 (by norm_num), by decide,
    C2_gen_secret_integrity plainLib [112, 119] (List.replicate 1024 9)
      (List.replicate 64 1) [8, 8, 8, 8, 8, 8, 8, 8]
      plainLib_scryptOK plainLib_base64OK plainLib_base64NoColon
      plainLib_ksOK (isBytes_replicate 1024 9 (by norm_num))
      (by rw [List.length_replicate])
      (isBytes_replicate 64 1 (by norm_num)) (by decide)⟩

/-! ## Claim C6 — fixed byte-offset partition of the master secret -/

/-- C6: sub-key derivation uses the fixed byte-offset partition of the
1024-byte master secret: `doc_mac_key` is HMAC-SHA256 keyed with
`master[0:64]`, `doc_passphrase` is HMAC-SHA256 keyed with
`master[64:512]`, and the local-db key is scrypt with salt
`master[512:576]` and password `master[576:1024]`, output length 32,
hex-encoded before being handed to `sqlcipher_open`.  (Slices are
written with the literal offsets; the definitions use the source's
named constants, so the equalities check the constant arithmetic.) -/
theorem C6_subkey_partition (P : CryptoLib) (s : SoledadState) (m : List Nat)
    (docId : String) (h : _get_storage_secret P s = .ok m)
    (hscr : scryptOK P) (hhm : hmacLenOK P) :
    doc_mac_key P s docId = .ok (P.hmacSha256 (m.take 64) docId) ∧
    doc_passphrase P s docId =
      .ok (P.hmacSha256 ((m.drop 64).take 448) docId) ∧
    _init_db_key P s =
      .ok (hexEncode (P.scryptHash ((m.drop 576).take 448)
        ((m.drop 512).take 64))) ∧
    (P.hmacSha256 (m.take 64) docId).length = 32 ∧
    (P.hmacSha256 ((m.drop 64).take 448) docId).length = 32 ∧
    (P.scryptHash ((m.drop 576).take 448) ((m.drop 512).take 64)).length
      = 32 := by
  have hcs : crypto_secret P s = .ok (some m) := by
    simp [crypto_secret, h]
  refine ⟨?_, ?_, ?_, hhm _ _, hhm _ _, hscr _ _⟩
  · simp [doc_mac_key, hcs, pySlice, MAC_KEY_LENGTH]
  · simp [doc_passphrase, hcs, pySlice, MAC_KEY_LENGTH,
      REMOTE_STORAGE_SECRET_LENGTH, LOCAL_STORAGE_SECRET_LENGTH,
      GENERATED_SECRET_LENGTH]
  · simp [_init_db_key, h, pySlice, REMOTE_STORAGE_SECRET_LENGTH,
      SALT_LENGTH, LOCAL_STORAGE_SECRET_LENGTH, GENERATED_SECRET_LENGTH]

/-- A well-formed stored secret used to evaluate the model: salt `[1]`,
iv `[8]`, ciphertext `[1, 2, 3]` (which decrypts to `[1, 2, 3]` under
`plainLib`'s zero keystream). -/
def sampleEntry : SecretData :=
  { kdf := "scrypt"
    kdf_salt := hexEncode [1]
    kdf_length := 32
    cipher := "aes256"
    length := 3
    secret := hexEncode [8] ++ ":" ++ hexEncode [1, 2, 3] }

def sampleState : SoledadState :=
  ⟨[112, 119], [("id1", sampleEntry)], some "id1"⟩

theorem C6_witness :
    _get_storage_secret plainLib sampleState = .ok [1, 2, 3] ∧
    scryptOK plainLib ∧ hmacLenOK plainLib ∧
    (doc_mac_key plainLib sampleState "doc" =
      .ok (plainLib.hmacSha256 ([1, 2, 3].take 64) "doc") ∧
    doc_passphrase plainLib sampleState "doc" =
      .ok (plainLib.hmacSha256 (([1, 2, 3].drop 64).take 448) "doc") ∧
    _init_db_key plainLib sampleState =
      .ok (hexEncode (plainLib.scryptHash (([1, 2, 3].drop 576).take 448)
        (([1, 2, 3].drop 512).take 64))) ∧
    (plainLib.hmacSha256 ([1, 2, 3].take 64) "doc").length = 32 ∧
    (plainLib.hmacSha256 (([1, 2, 3].drop 64).take 448) "doc").length = 32 ∧
    (plainLib.scryptHash (([1, 2, 3].drop 576).take 448)
      (([1, 2, 3].drop 512).take 64)).length = 32) :=
  ⟨rfl, plainLib_scryptOK, plainLib_hmacLenOK,
    C6_subkey_partition plainLib sampleState [1, 2, 3] "doc" rfl
      plainLib_scryptOK plainLib_hmacLenOK⟩

/-! ## Claim C5 — no integrity check on unwrap -/

/-- A stored secret whose id (`"00"`) is NOT the hex SHA-256 of the
plaintext it decrypts to. -/
def mismatchState : SoledadState :=
  ⟨[112, 119], [("00", sampleEntry)], some "00"⟩

/-- C5 counterexample: the active wrapped secret of `mismatchState`
unwraps to `[1, 2, 3]` whose hex SHA-256 under the library differs from
the stored id `"00"`, yet `_get_storage_secret` returns the mismatching
bytes instead of failing — the source compares nothing against
`secret_id` and defines no `IntegrityError`. -/
theorem C5_counterexample :
    _get_storage_secret plainLib mismatchState = .ok [1, 2, 3] ∧
    plainLib.sha256hex [1, 2, 3] ≠ "00" := by
  refine ⟨rfl, ?_⟩
  intro h
  exact absurd h (by decide)

/-- C5 (amended): `_get_storage_secret` performs no integrity check:
whenever the active entry is present and its `secret` field contains a
`:` separator, it returns the decrypted bytes unconditionally — with no
hypothesis relating the SHA-256 of the plaintext to the stored
`secret_id`, and no `IntegrityError` in its error set. -/
theorem C5_unwrap_unchecked (P : CryptoLib) (s : SoledadState) (sid : String)
    (entry : SecretData) (ivb64 ctb64 : String)
    (hscr : scryptOK P)
    (hsid : s.secret_id = some sid)
    (hlk : dlookup s.secrets sid = some entry)
    (hsplit : splitSecret entry.secret = some (ivb64, ctb64)) :
    _get_storage_secret P s =
      .ok (ctrXor
        (P.ctrKeystream (P.scryptHash s.passphrase (P.a2bBase64 entry.kdf_salt))
          (P.a2bBase64 ivb64))
        0 (P.a2bBase64 ctb64)) :=
  getss_eq P s sid entry ivb64 ctb64 hsid hlk hsplit (hscr _ _)

theorem C5_witness :
    scryptOK plainLib ∧
    mismatchState.secret_id = some "00" ∧
    dlookup mismatchState.secrets "00" = some sampleEntry ∧
    splitSecret sampleEntry.secret = some (hexEncode [8], hexEncode [1, 2, 3]) ∧
    _get_storage_secret plainLib mismatchState =
      .ok (ctrXor
        (plainLib.ctrKeystream
          (plainLib.scryptHash mismatchState.passphrase
            (plainLib.a2bBase64 sampleEntry.kdf_salt))
          (plainLib.a2bBase64 (hexEncode [8])))
        0 (plainLib.a2bBase64 (hexEncode [1, 2, 3]))) :=
  ⟨plainLib_scryptOK, rfl, rfl, rfl,
    C5_unwrap_unchecked plainLib mismatchState "00" sampleEntry
      (hexEncode [8]) (hexEncode [1, 2, 3]) plainLib_scryptOK rfl rfl rfl⟩

/-! ## Claim C9 — derivation failure without a secret -/

/-- A fresh instance before any secret exists: empty map, no active id
(`__init__.py` 289-290). -/
def emptyState : SoledadState := ⟨[112, 119], [], none⟩

/-- C9 (code bug): with no master secret available, `doc_mac_key` and
`doc_passphrase` fail — but with `KeyError` (the dictionary lookup
`self._secrets[self._secret_id]` inside the `storage_secret` property),
NOT with `NoSymmetricSecret` as the claim and the methods' own
docstrings state: the `if self.secret is None` guard never fires
because the property raises instead of returning `None`.  With a usable
secret both calls succeed and return 32 bytes. -/
theorem C9_derivation_failure_mode :
    doc_mac_key plainLib emptyState "doc1" = .error .keyError ∧
    doc_passphrase plainLib emptyState "doc1" = .error .keyError ∧
    doc_mac_key plainLib emptyState "doc1" ≠ .error .noSymmetricSecret ∧
    (doc_mac_key plainLib sampleState "doc1").map List.length = .ok 32 ∧
    (doc_passphrase plainLib sampleState "doc1").map List.length = .ok 32 := by
  refine ⟨rfl, rfl, ?_, rfl, rfl⟩
  intro h
  have h2 : Err.keyError = Err.noSymmetricSecret := Except.error.inj h
  exact absurd h2 (by decide)

/-! ## Claims C8 and C10 — import merge is monotone, local entry wins -/

theorem ird_secrets (s : BootState) (d : RecoveryDoc) :
    ((import_recovery_document s d).1).secrets
      = import_secrets s.secrets d.storage_secrets := by
  simp only [import_recovery_document]
  split <;> (try split) <;> (try split) <;> rfl

/-- C8: `import_recovery_document` is monotone on the secrets map:
every secret id present in the in-memory map before the import is still
present afterwards (the merge loop only ever inserts ids that are
absent; nothing is removed). -/
theorem C8_import_monotone (s : BootState) (d : RecoveryDoc) (sid : String)
    (h : (dlookup s.secrets sid).isSome = true) :
    (dlookup ((import_recovery_document s d).1).secrets sid).isSome = true := by
  obtain ⟨v, hv⟩ := Option.isSome_iff_exists.mp h
  rw [ird_secrets, import_secrets_preserves d.storage_secrets s.secrets sid v hv]
  rfl

/-- C10: on a secret-id collision during `import_recovery_document`,
the local entry wins: a locally stored value is left unchanged by
the merge (the loop skips ids already present). -/
theorem C10_local_entry_wins (s : BootState) (d : RecoveryDoc) (sid : String)
    (v : SecretData) (h : dlookup s.secrets sid = some v) :
    dlookup ((import_recovery_document s d).1).secrets sid = some v := by
  rw [ird_secrets]
  exact import_secrets_preserves d.storage_secrets s.secrets sid v h

/-- A second wrapped-secret value, byte-for-byte different from
`sampleEntry`, for exercising an id collision. -/
def otherEntry : SecretData :=
  { kdf := "scrypt"
    kdf_salt := hexEncode [2]
    kdf_length := 32
    cipher := "aes256"
    length := 3
    secret := hexEncode [9] ++ ":" ++ hexEncode [4, 5, 6] }

def importBase : BootState :=
  { toSoledadState := sampleState, uuid := "u-1", disk := none }

def collidingDoc : RecoveryDoc :=
  { storage_secrets := [("id1", otherEntry), ("id2", otherEntry)]
    uuid := none }

theorem C8_witness :
    (dlookup importBase.secrets "id1").isSome = true ∧
    (dlookup ((import_recovery_document importBase collidingDoc).1).secrets
      "id1").isSome = true :=
  ⟨rfl, C8_import_monotone importBase collidingDoc "id1" rfl⟩

theorem C10_witness :
    dlookup importBase.secrets "id1" = some sampleEntry ∧
    dlookup ((import_recovery_document importBase collidingDoc).1).secrets
      "id1" = some sampleEntry :=
  ⟨rfl, C10_local_entry_wins importBase collidingDoc "id1" sampleEntry rfl⟩

/-! ## Bootstrap-level helper lemmas -/

/-- Whether a bootstrap run completed without an exception. -/
def bootOK (P : CryptoLib) (w : World) (s : BootState) : Bool :=
  match _bootstrap P w s with
  | .ok _ => true
  | .error _ => false

/-- Whether the final in-memory map of a bootstrap run still holds `sid`. -/
def bootSecretsHave (P : CryptoLib) (w : World) (s : BootState) (sid : String) :
    Except Err Bool :=
  match _bootstrap P w s with
  | .error e => .error e
  | .ok r => .ok (dlookup r.1.secrets sid).isSome

theorem has_secret_load_skip (s : BootState) (sid : String) (entry : SecretData)
    (hsid : s.secret_id = some sid) (hlk : dlookup s.secrets sid = some entry) :
    _has_secret_load s = .ok s := by
  simp only [_has_secret_load, hsid, hlk, Option.isNone_some,
    Bool.false_eq_true, if_false]

theorem gen_state_parts (P : CryptoLib) (w : World) (s1 s2 : BootState)
    (gsid : String) (h : _gen_secret_state P w s1 = .ok (s2, gsid)) :
    ∃ entry, s2.secrets = dinsert s1.secrets gsid entry := by
  unfold _gen_secret_state at h
  split at h
  · exact Except.noConfusion h
  · rename_i sid entry heq
    have hpair := Except.ok.inj h
    injection hpair with hfst hsnd
    subst hfst
    subst hsnd
    exact ⟨entry, rfl⟩

theorem put_unfold (P : CryptoLib) (w : World) (s2 : BootState)
    (m : List Nat) (hm : _get_storage_secret P s2.toSoledadState = .ok m) :
    _put_secrets_in_shared_db P w s2 =
      (match _get_secrets_from_shared_db w with
       | .error e => .error e
       | .ok _ =>
         if w.dbAvailable then
           match w.putResp with
           | .ok _ => .ok (s2, true)
           | .unavailable => .error .remoteUnavailable
         else .ok (s2, false)) := by
  simp only [_put_secrets_in_shared_db, has_secret_stable P s2 m hm, if_true]

theorem put_noHandle_skips (P : CryptoLib) (w : World) (s2 s3 : BootState)
    (pd : Bool) (hdb : w.dbAvailable = false)
    (hp : _put_secrets_in_shared_db P w s2 = .ok (s3, pd)) : pd = false := by
  unfold _put_secrets_in_shared_db at hp
  split at hp
  · exact Except.noConfusion hp
  · rename_i s1 has
    split at hp
    · cases hf : _get_secrets_from_shared_db w with
      | error e => rw [hf] at hp; exact Except.noConfusion hp
      | ok dd =>
        rw [hf] at hp
        simp only [hdb, Bool.false_eq_true, if_false] at hp
        exact (congrArg Prod.snd (Except.ok.inj hp)).symm
    · exact Except.noConfusion hp

theorem put_state_eq (P : CryptoLib) (w : World) (s2 s3 : BootState)
    (pd : Bool) (sid : String) (entry : SecretData)
    (hsid : s2.secret_id = some sid)
    (hlk : dlookup s2.secrets sid = some entry)
    (hp : _put_secrets_in_shared_db P w s2 = .ok (s3, pd)) : s3 = s2 := by
  unfold _put_secrets_in_shared_db _has_secret at hp
  rw [has_secret_load_skip s2 sid entry hsid hlk] at hp
  cases hgs : _get_storage_secret P s2.toSoledadState with
  | error e =>
    simp only [hgs] at hp
    exact Except.noConfusion hp
  | ok m =>
    simp only [hgs] at hp
    cases hf : _get_secrets_from_shared_db w with
    | error e => rw [hf] at hp; exact Except.noConfusion hp
    | ok dd =>
      rw [hf] at hp
      cases hdbv : w.dbAvailable with
      | false =>
        simp only [hdbv, Bool.false_eq_true, if_false] at hp
        exact (congrArg Prod.fst (Except.ok.inj hp)).symm
      | true =>
        simp only [hdbv, if_true] at hp
        cases hpr : w.putResp with
        | ok u =>
          rw [hpr] at hp
          exact (congrArg Prod.fst (Except.ok.inj hp)).symm
        | unavailable => rw [hpr] at hp; exact Except.noConfusion hp

theorem bootstrap_unfold_gen (P : CryptoLib) (w : World) (s s1 : BootState)
    (h1 : _has_secret P s = .ok (s1, false))
    (h2 : _get_secrets_from_shared_db w = .ok none) :
    _bootstrap P w s =
      (match _gen_secret_state P w s1 with
       | .error e => .error e
       | .ok (s2, sid) =>
         match _put_secrets_in_shared_db P w
           { s2 with toSoledadState :=
             { s2.toSoledadState with secret_id := some sid } } with
         | .error e => .error e
         | .ok (s3, pd) =>
           match _init_db_key P s3.toSoledadState with
           | .error e => .error e
           | .ok key => .ok (s3, ⟨true, pd, some key⟩)) := by
  simp only [_bootstrap, h1, Bool.false_eq_true, if_false, h2]
  cases hg : _gen_secret_state P w s1 with
  | error e => rfl
  | ok r => cases r; rfl

theorem bootstrap_unfold_skip (P : CryptoLib) (w : World) (s s1 : BootState)
    (h1 : _has_secret P s = .ok (s1, true)) :
    _bootstrap P w s =
      (match _put_secrets_in_shared_db P w s1 with
       | .error e => .error e
       | .ok (s3, pd) =>
         match _init_db_key P s3.toSoledadState with
         | .error e => .error e
         | .ok key => .ok (s3, ⟨false, pd, some key⟩)) := by
  simp only [_bootstrap, h1, if_true]

/-! ## Concrete bootstrap scenarios -/

/-- A stored entry whose `secret` field has no `:` separator, so
unwrapping raises `ValueError` under every passphrase — a file that
"cannot be unwrapped". -/
def badEntry : SecretData :=
  { kdf := "scrypt"
    kdf_salt := hexEncode [1]
    kdf_length := 32
    cipher := "aes256"
    length := 3
    secret := "xyz" }

/-- Fresh instance whose secrets file exists but holds only `badEntry`. -/
def unusableFileState : BootState :=
  { toSoledadState := ⟨[112, 119], [], none⟩
    uuid := "u-1"
    disk := some [("id0", badEntry)] }

/-- `unusableFileState` after `_load_secrets` ran inside `_has_secret`. -/
def unusableFileLoaded : BootState :=
  { toSoledadState := ⟨[112, 119], [("id0", badEntry)], some "id0"⟩
    uuid := "u-1"
    disk := some [("id0", badEntry)] }

/-- Returning user: usable secret in memory and on disk. -/
def returningState : BootState :=
  { toSoledadState := sampleState
    uuid := "u-1"
    disk := some [("id1", sampleEntry)] }

/-- Server reachable, no recovery document stored, puts succeed. -/
def serverEmptyWorld : World :=
  { dbAvailable := true
    getResp := .ok none
    putResp := .ok ()
    freshSecret := [5]
    freshSalt := [6]
    freshIv := [7] }

/-- `server_url` falsy: `_shared_db()` returns no handle. -/
def noHandleWorld : World :=
  { dbAvailable := false
    getResp := .ok none
    putResp := .ok ()
    freshSecret := [5]
    freshSalt := [6]
    freshIv := [7] }

/-- Server reachable for gets, but `put_doc` raises. -/
def putFailWorld : World :=
  { dbAvailable := true
    getResp := .ok none
    putResp := .unavailable
    freshSecret := [5]
    freshSalt := [6]
    freshIv := [7] }

/-! ## Claim C1 — behaviour when the local secret cannot be unwrapped -/

/-- C1 counterexample: the secrets file exists but its only secret
cannot be unwrapped (`_has_secret` returns false for that reason); the
shared database holds no recovery document — and the bootstrap run
GENERATES a fresh secret (`generated = true` in the completed trace),
instead of failing with an `IntegrityError` (which the code does not
define) or stopping after the fetch. -/
theorem C1_counterexample :
    unusableFileState.disk.isSome = true ∧
    (_has_secret plainLib unusableFileState).map (fun r => r.2) = .ok false ∧
    bootGenerated plainLib serverEmptyWorld unusableFileState = .ok true :=
  ⟨rfl, rfl, rfl⟩

/-- C1 (amended): when the secrets file exists but the active secret
cannot be unwrapped, Bootstrap proceeds to fetch from the shared
server as the claim says — but when no recovery document is found
there it DOES generate a fresh secret, which becomes the active one
(`generated` is true in every completed run); no `IntegrityError`
exists in the code.  The previously stored wrapped secrets are not
deleted: every id present after the failed unwrap is still in the map
of every completed run. -/
theorem C1_wrong_passphrase_generates (P : CryptoLib) (w : World)
    (s s1 : BootState) (sid : String)
    (_hdisk : s.disk.isSome = true)
    (h1 : _has_secret P s = .ok (s1, false))
    (h2 : _get_secrets_from_shared_db w = .ok none)
    (h3 : (dlookup s1.secrets sid).isSome = true) :
    bootGenerated P w s ≠ .ok false ∧
    bootSecretsHave P w s sid ≠ .ok false := by
  unfold bootGenerated bootSecretsHave
  rw [bootstrap_unfold_gen P w s s1 h1 h2]
  cases hg : _gen_secret_state P w s1 with
  | error e => simp
  | ok r =>
    obtain ⟨s2, gsid⟩ := r
    obtain ⟨entry, hsec⟩ := gen_state_parts P w s1 s2 gsid hg
    simp only []
    cases hp : _put_secrets_in_shared_db P w
        { s2 with toSoledadState :=
          { s2.toSoledadState with secret_id := some gsid } } with
    | error e => simp [hp]
    | ok r2 =>
      obtain ⟨s3, pd⟩ := r2
      have hs3 : s3 = { s2 with toSoledadState :=
          { s2.toSoledadState with secret_id := some gsid } } :=
        put_state_eq P w _ s3 pd gsid entry rfl
          (by show dlookup s2.secrets gsid = some entry
              rw [hsec, dlookup_dinsert]
              simp) hp
      cases hi : _init_db_key P s3.toSoledadState with
      | error e => simp [hp, hi]
      | ok key =>
        have hmem : (dlookup s3.secrets sid).isSome = true := by
          rw [hs3]
          show (dlookup s2.secrets sid).isSome = true
          rw [hsec, dlookup_dinsert]
          by_cases hgs : gsid = sid
          · simp [hgs]
          · simpa [hgs] using h3
        constructor
        · simp [hp, hi]
        · simp [hp, hi, hmem]

theorem C1_witness :
    unusableFileState.disk.isSome = true ∧
    _has_secret plainLib unusableFileState = .ok (unusableFileLoaded, false) ∧
    _get_secrets_from_shared_db serverEmptyWorld = .ok none ∧
    (dlookup unusableFileLoaded.secrets "id0").isSome = true ∧
    (bootGenerated plainLib serverEmptyWorld unusableFileState ≠ .ok false ∧
     bootSecretsHave plainLib serverEmptyWorld unusableFileState "id0" ≠
       .ok false) :=
  ⟨rfl, rfl, rfl, rfl,
    C1_wrong_passphrase_generates plainLib serverEmptyWorld unusableFileState
      unusableFileLoaded "id0" rfl rfl rfl rfl⟩

/-! ## Claim C7 — returning user -/

/-- C7 counterexample: a run that starts with a usable local secret
(`_has_secret` true) nevertheless performs a put to the shared
recovery database — stage 2 runs unconditionally, so "no shared-db
put" is false. -/
theorem C7_counterexample :
    (_has_secret plainLib returningState).map (fun r => r.2) = .ok true ∧
    bootPutDone plainLib serverEmptyWorld returningState = .ok true :=
  ⟨rfl, rfl⟩

/-- C7 (amended): a returning-user run performs no fetch/import and
generates nothing, and it opens the local database with the derived
key — but before doing so it still executes stage 2, which puts the
exported recovery document into the shared database whenever the
handle is available and the remote calls succeed. -/
theorem C7_returning_user (P : CryptoLib) (w : World) (s s1 : BootState)
    (dd : Option RecoveryDoc)
    (h1 : _has_secret P s = .ok (s1, true))
    (hdb : w.dbAvailable = true)
    (hget : w.getResp = .ok dd)
    (hput : w.putResp = .ok ()) :
    bootGenerated P w s = .ok false ∧
    bootPutDone P w s = .ok true ∧
    bootOpened P w s = .ok true := by
  obtain ⟨m, hm⟩ := has_secret_true_getss P s s1 h1
  have hfetch : _get_secrets_from_shared_db w = .ok dd := by
    simp [_get_secrets_from_shared_db, hdb, hget]
  have hput2 : _put_secrets_in_shared_db P w s1 = .ok (s1, true) := by
    rw [put_unfold P w s1 m hm, hfetch]
    simp [hdb, hput]
  have hinit : _init_db_key P s1.toSoledadState =
      .ok (hexEncode (P.scryptHash
        (pySlice m (REMOTE_STORAGE_SECRET_LENGTH + SALT_LENGTH)
          (REMOTE_STORAGE_SECRET_LENGTH + LOCAL_STORAGE_SECRET_LENGTH))
        (pySlice m REMOTE_STORAGE_SECRET_LENGTH
          (REMOTE_STORAGE_SECRET_LENGTH + SALT_LENGTH)))) := by
    simp only [_init_db_key, hm]
  unfold bootGenerated bootPutDone bootOpened
  rw [bootstrap_unfold_skip P w s s1 h1]
  simp only [hput2, hinit]
  exact ⟨trivial, trivial, rfl⟩

theorem C7_witness :
    _has_secret plainLib returningState = .ok (returningState, true) ∧
    serverEmptyWorld.dbAvailable = true ∧
    serverEmptyWorld.getResp = .ok none ∧
    serverEmptyWorld.putResp = .ok () ∧
    (bootGenerated plainLib serverEmptyWorld returningState = .ok false ∧
     bootPutDone plainLib serverEmptyWorld returningState = .ok true ∧
     bootOpened plainLib serverEmptyWorld returningState = .ok true) :=
  ⟨rfl, rfl, rfl, rfl,
    C7_returning_user plainLib serverEmptyWorld returningState returningState
      none rfl rfl rfl rfl⟩

/-! ## Claim C3 — shared-db unavailability in fetch versus push -/

/-- C3 counterexample: a run in which the push cannot be performed (no
shared-db handle, so stage 2 skips the put with only a warning) DOES
proceed to open the local database. -/
theorem C3_counterexample :
    noHandleWorld.dbAvailable = false ∧
    bootPutDone plainLib noHandleWorld returningState = .ok false ∧
    bootOpened plainLib noHandleWorld returningState = .ok true :=
  ⟨rfl, rfl, rfl⟩

/-- C3 (amended): an absent shared-db handle is tolerated in BOTH
steps: during fetch it is treated as "no document" (a fresh-user run
falls through to generating a secret) and during push the put is
skipped, after which bootstrap still opens the local database.  What
is fatal before the local database opens is a `put_doc` network
failure while the handle exists: bootstrap then aborts with
`RemoteUnavailable`. -/
theorem C3_unavailability_semantics (P : CryptoLib) (w1 w2 : World)
    (sA sa1 sB sb1 : BootState) (dd : Option RecoveryDoc)
    (h1 : w1.dbAvailable = false)
    (ha : _has_secret P sA = .ok (sa1, false))
    (hb : bootOK P w1 sA = true)
    (h2 : w2.dbAvailable = true)
    (h2g : w2.getResp = .ok dd)
    (h2p : w2.putResp = .unavailable)
    (hc : _has_secret P sB = .ok (sb1, true)) :
    bootGenerated P w1 sA = .ok true ∧
    bootPutDone P w1 sA = .ok false ∧
    bootOpened P w1 sA = .ok true ∧
    _bootstrap P w2 sB = .error .remoteUnavailable := by
  have hfetch1 : _get_secrets_from_shared_db w1 = .ok none := by
    simp [_get_secrets_from_shared_db, h1]
  have hrw := bootstrap_unfold_gen P w1 sA sa1 ha hfetch1
  have hD : _bootstrap P w2 sB = .error .remoteUnavailable := by
    obtain ⟨m, hm⟩ := has_secret_true_getss P sB sb1 hc
    have hfetch2 : _get_secrets_from_shared_db w2 = .ok dd := by
      simp [_get_secrets_from_shared_db, h2, h2g]
    have hput2 : _put_secrets_in_shared_db P w2 sb1 =
        .error .remoteUnavailable := by
      rw [put_unfold P w2 sb1 m hm, hfetch2]
      simp [h2, h2p]
    rw [bootstrap_unfold_skip P w2 sB sb1 hc]
    simp only [hput2]
  unfold bootOK at hb
  rw [hrw] at hb
  unfold bootGenerated bootPutDone bootOpened
  rw [hrw]
  cases hg : _gen_secret_state P w1 sa1 with
  | error e => simp only [hg] at hb; simp at hb
  | ok r =>
    obtain ⟨s2, gsid⟩ := r
    simp only [hg] at hb ⊢
    cases hp : _put_secrets_in_shared_db P w1
        { s2 with toSoledadState :=
          { s2.toSoledadState with secret_id := some gsid } } with
    | error e => simp only [hp] at hb; simp at hb
    | ok r2 =>
      obtain ⟨s3, pd⟩ := r2
      have hpd : pd = false := put_noHandle_skips P w1 _ s3 pd h1 hp
      subst hpd
      simp only [hp] at hb ⊢
      cases hi : _init_db_key P s3.toSoledadState with
      | error e => simp only [hi] at hb; simp at hb
      | ok key => simp [hi, hD]

theorem C3_witness :
    noHandleWorld.dbAvailable = false ∧
    _has_secret plainLib unusableFileState = .ok (unusableFileLoaded, false) ∧
    bootOK plainLib noHandleWorld unusableFileState = true ∧
    putFailWorld.dbAvailable = true ∧
    putFailWorld.getResp = .ok none ∧
    putFailWorld.putResp = .unavailable ∧
    _has_secret plainLib returningState = .ok (returningState, true) ∧
    (bootGenerated plainLib noHandleWorld unusableFileState = .ok true ∧
     bootPutDone plainLib noHandleWorld unusableFileState = .ok false ∧
     bootOpened plainLib noHandleWorld unusableFileState = .ok true ∧
     _bootstrap plainLib putFailWorld returningState =
       .error .remoteUnavailable) :=
  ⟨rfl, rfl, rfl, rfl, rfl, rfl, rfl,
    C3_unavailability_semantics plainLib noHandleWorld putFailWorld
      unusableFileState unusableFileLoaded returningState returningState none
      rfl rfl rfl rfl rfl rfl rfl⟩

end Soledad
